import Mathlib

/-!
Verification of the smartbot trading engine specification against a shallow
embedding of the repository's Python source.

Conventions used throughout this development:
* Python floats are modelled as rationals (ℚ); the claims settled here concern
  clamps, sign tests and branch selection, which agree between the two.
* A pandas NaN cell is modelled as an Option that is none; pd.isna checks
  become Option matches.
* Values the Python code reads from the ambient environment (wall-clock time,
  freshly drawn UUIDs, env-var configuration) are passed as explicit arguments,
  so every definition is a pure function of its inputs.
* File-persisted state (positions ledger, risk state, idempotency store,
  brain memory) is threaded explicitly: a mutating method becomes a function
  returning the new state.
-/

namespace SmartBot

/-- Round-half-even to an integer, the rounding used by Python's builtin
round and string formatting. -/
def rhe (q : ℚ) : ℤ :=
  let f := ⌊q⌋
  let r := q - f
  if r < 1/2 then f
  else if 1/2 < r then f + 1
  else if f % 2 = 0 then f else f + 1

/-- Python round(x, n): round-half-even at n decimal places. -/
def roundN (q : ℚ) (n : ℕ) : ℚ := (rhe (q * 10 ^ n) : ℚ) / 10 ^ n

/-- Python format spec .0f (used in factor labels such as RSI:45). -/
def fmt0 (q : ℚ) : String := toString (rhe q)

/-- Python format spec .1f (used in momentum factor labels such as +0.3). -/
def fmt1 (q : ℚ) : String :=
  let n := rhe (q * 10)
  (if n < 0 then "-" else "") ++ toString (n.natAbs / 10) ++ "." ++ toString (n.natAbs % 10)

theorem rhe_le {q : ℚ} {m : ℤ} (h : q ≤ (m : ℚ)) : rhe q ≤ m := by
  have hf : ⌊q⌋ ≤ m := Int.floor_le_floor (α := ℚ) h |>.trans_eq (Int.floor_intCast m)
  simp only [rhe]
  split_ifs with h1 h2 h3
  · exact hf
  · rcases lt_or_eq_of_le hf with hlt | heq
    · omega
    · exfalso
      have : q - (⌊q⌋ : ℚ) ≤ 0 := by
        rw [heq]; linarith
      linarith
  · exact hf
  · rcases lt_or_eq_of_le hf with hlt | heq
    · omega
    · exfalso
      have hr0 : q - (⌊q⌋ : ℚ) ≤ 0 := by
        rw [heq]; linarith
      have := not_lt.mp h1
      linarith

theorem le_rhe {q : ℚ} {n : ℤ} (h : (n : ℚ) ≤ q) : n ≤ rhe q := by
  have hf : n ≤ ⌊q⌋ := Int.le_floor.mpr h
  simp only [rhe]
  split_ifs <;> omega

theorem roundN_le {q : ℚ} {m : ℤ} {n : ℕ} (h : q ≤ (m : ℚ) / 10 ^ n) :
    roundN q n ≤ (m : ℚ) / 10 ^ n := by
  have hp : (0 : ℚ) < 10 ^ n := by positivity
  have h1 : q * 10 ^ n ≤ (m : ℚ) := (le_div_iff₀ hp).mp h
  have h2 := rhe_le h1
  rw [roundN, div_le_div_iff₀ hp hp]
  have h3 : ((rhe (q * 10 ^ n) : ℚ)) ≤ (m : ℚ) := by exact_mod_cast h2
  nlinarith

theorem le_roundN {q : ℚ} {m : ℤ} {n : ℕ} (h : (m : ℚ) / 10 ^ n ≤ q) :
    (m : ℚ) / 10 ^ n ≤ roundN q n := by
  have hp : (0 : ℚ) < 10 ^ n := by positivity
  have h1 : (m : ℚ) ≤ q * 10 ^ n := (div_le_iff₀ hp).mp h
  have h2 := le_rhe h1
  rw [roundN, div_le_div_iff₀ hp hp]
  have h3 : (m : ℚ) ≤ ((rhe (q * 10 ^ n) : ℚ)) := by exact_mod_cast h2
  nlinarith

/-! ## Momentum scorer (live_trader.py, compute_momentum_score) -/

/-- One indicator-enriched 15-minute bar (a row of the dataframe produced by
compute_indicators). Fields that the code guards with pd.isna are Options. -/
structure Bar where
  close : ℚ
  smaShort : ℚ
  smaLong : ℚ
  rsi : Option ℚ
  macdHist : Option ℚ
  bbUpper : ℚ
  bbLower : ℚ
  volume : ℚ
  atr : Option ℚ
  vwap : Option ℚ
deriving DecidableEq

inductive TradeAction
  | buy
  | sell
  | hold
deriving DecidableEq

/-- The dict returned by compute_momentum_score on sufficient data. -/
structure ScoreOk where
  action : TradeAction
  price : ℚ
  confidence : ℚ
  reason : String
  stopLoss : ℚ
  atr : ℚ
  score : ℤ
  factors : List String
  rsi : ℚ
  pct1h : ℚ
deriving DecidableEq

/-- compute_momentum_score result: the insufficient-data early return carries
only score 0 / hold, modelled as a separate constructor. -/
inductive ScoreResult
  | insufficientData
  | ok (r : ScoreOk)
deriving DecidableEq

/-- pct_1h = (price - prev Close) / prev Close * 100. -/
def pct1hBar (latest prev : Bar) : ℚ := (latest.close - prev.close) / prev.close * 100

/-- Rolling 20-bar mean of Volume at the last row. -/
def volMean20 (df : List Bar) : ℚ := (((df.reverse.take 20).map Bar.volume).sum) / 20

/-- The opening-surge condition of section 8 of the scorer: within the first
30 minutes after 09:30 ET and pct_1h > 0.1.  minsSinceOpen is the wall-clock
minutes since market open at call time (none models the pytz failure path). -/
def openingSurge (pct1h : ℚ) (minsSinceOpen : Option ℚ) : Bool :=
  match minsSinceOpen with
  | some m => decide (0 ≤ m) && decide (m ≤ 30) && decide (1/10 < pct1h)
  | none => false

/-- Final clamp: score = max(0, min(100, score)). -/
def clampScore (raw : ℤ) : ℤ := max 0 (min 100 raw)

/-- Confidence before the final min(confidence, 1.0). -/
def rawConfidence (score : ℤ) (rsi : ℚ) : ℚ :=
  if 50 ≤ score then 1/2 + ((score : ℚ) - 50) / 100
  else if score ≤ 15 ∧ 75 < rsi then 7/10
  else 0

def actionOf (score : ℤ) (rsi : ℚ) : TradeAction :=
  if 50 ≤ score then .buy
  else if score ≤ 15 ∧ 75 < rsi then .sell
  else .hold

/-- Body of compute_momentum_score once the three trailing rows are in hand.
Each section contributes (points, factor labels) exactly as in the source. -/
def computeCore (latest prev prev2 : Bar) (volMean : ℚ) (surge : Bool) : ScoreOk :=
  let price := latest.close
  let atr := latest.atr.getD (price * 2 / 100)
  -- 1. SMA trend (0-15 pts)
  let s1 : ℤ := if latest.smaLong < latest.smaShort then
      (if prev.smaShort ≤ prev.smaLong then 15 else 10) else 0
  let f1 : List String := if latest.smaLong < latest.smaShort then
      (if prev.smaShort ≤ prev.smaLong then ["SMA+", "GoldenX"] else ["SMA+"]) else []
  -- 2. RSI zone (0-15 pts)
  let rsi := latest.rsi.getD 50
  let s2 : ℤ := if 30 ≤ rsi ∧ rsi ≤ 50 then 15
      else if 50 < rsi ∧ rsi ≤ 65 then 10
      else if rsi < 30 then 8
      else if 75 < rsi then -5
      else 0
  let f2 : List String := if 30 ≤ rsi ∧ rsi ≤ 50 then ["RSI:" ++ fmt0 rsi ++ "*"]
      else if 50 < rsi ∧ rsi ≤ 65 then ["RSI:" ++ fmt0 rsi]
      else if rsi < 30 then ["RSI:" ++ fmt0 rsi ++ "!"]
      else if 75 < rsi then ["RSI:" ++ fmt0 rsi ++ "X"]
      else []
  -- 3. MACD momentum (0-15 pts)
  let mh := latest.macdHist.getD 0
  let mhp := prev.macdHist.getD 0
  let s3 : ℤ := if 0 < mh then (if mhp < mh then 15 else 8) else 0
  let f3 : List String := if 0 < mh then
      (if mhp < mh then ["MACD+", "MACD++"] else ["MACD+"]) else []
  -- 4. Bollinger Band position (0-10 pts)
  let bbRange := latest.bbUpper - latest.bbLower
  let bbPos := (price - latest.bbLower) / bbRange
  let s4 : ℤ := if 0 < bbRange then
      (if 3/10 ≤ bbPos ∧ bbPos ≤ 6/10 then 10
       else if bbPos < 3/10 then 7
       else if 85/100 < bbPos then -3
       else 0) else 0
  let f4 : List String := if 0 < bbRange then
      (if 3/10 ≤ bbPos ∧ bbPos ≤ 6/10 then ["BB:mid"]
       else if bbPos < 3/10 then ["BB:low"]
       else if 85/100 < bbPos then ["BB:hi!"]
       else []) else []
  -- 5. Volume confirmation (0-10 pts)
  let s5 : ℤ := if 0 < volMean ∧ volMean * 13/10 < latest.volume then 10
      else if 0 < volMean ∧ volMean < latest.volume then 5
      else 0
  let f5 : List String := if 0 < volMean ∧ volMean * 13/10 < latest.volume then ["Vol+"]
      else if 0 < volMean ∧ volMean < latest.volume then ["Vol"]
      else []
  -- 6. Price momentum (0-15 pts)
  let pct1h := pct1hBar latest prev
  let pct3h := (price - prev2.close) / prev2.close * 100
  let s6 : ℤ := (if 1/2 < pct1h then 10
      else if 1/5 < pct1h then 6
      else if pct1h < -(1/2) then -5
      else 0) + (if 4/5 < pct3h then 5 else 0)
  let f6 : List String := (if 1/2 < pct1h then ["+" ++ fmt1 pct1h ++ "%"]
      else if 1/5 < pct1h then ["+" ++ fmt1 pct1h ++ "%"]
      else if pct1h < -(1/2) then [fmt1 pct1h ++ "%!"]
      else []) ++ (if 4/5 < pct3h then ["3h+"] else [])
  -- 7. VWAP position (0-10 pts)
  let s7 : ℤ := match latest.vwap with
    | some v => if price < v * 998/1000 then 10
        else if price < v * 1002/1000 then 5
        else -3
    | none => 0
  let f7 : List String := match latest.vwap with
    | some v => if price < v * 998/1000 then ["VWAP:buy"]
        else if price < v * 1002/1000 then ["VWAP:at"]
        else ["VWAP:hi!"]
    | none => []
  -- 8. Opening surge bonus (0-10 pts)
  let s8 : ℤ := if surge then 10 else 0
  let f8 : List String := if surge then ["OpenSurge"] else []
  let raw := s1 + s2 + s3 + s4 + s5 + s6 + s7 + s8
  let score := clampScore raw
  let factors := f1 ++ f2 ++ f3 ++ f4 ++ f5 ++ f6 ++ f7 ++ f8
  let reasonStr := if factors = [] then "No signals"
      else String.intercalate " + " (factors.take 6)
  { action := actionOf score rsi
    price := price
    confidence := min (rawConfidence score rsi) 1
    reason := "Score:" ++ toString score ++ "/100 [" ++ reasonStr ++ "]"
    stopLoss := price - atr * 2
    atr := atr
    score := score
    factors := factors
    rsi := rsi
    pct1h := pct1h }

/-- compute_momentum_score(df).  The dataframe is the chronological list of
bars; minsSinceOpen abstracts the datetime.now(ET) read in section 8. -/
def computeMomentumScore (df : List Bar) (minsSinceOpen : Option ℚ) : ScoreResult :=
  if df.length < 30 then .insufficientData
  else
    match df.reverse with
    | latest :: prev :: prev2 :: _ =>
        .ok (computeCore latest prev prev2 (volMean20 df)
          (openingSurge (pct1hBar latest prev) minsSinceOpen))
    | _ => .insufficientData

/-- The only way minsSinceOpen reaches the result: through the surge flag. -/
def openingSurgeOf (df : List Bar) (minsSinceOpen : Option ℚ) : Bool :=
  match df.reverse with
  | latest :: prev :: _ => openingSurge (pct1hBar latest prev) minsSinceOpen
  | _ => false

/-! ## Kelly criterion sizing (live_trader.py, kelly_fraction) -/

/-- kelly_fraction(win_rate, avg_win, avg_loss): half-Kelly with a clamp to
between 0.05 and 0.45 before halving, or the 0.15 fallback when a divisor
would be zero. -/
def kellyFraction (winRate avgWin avgLoss : ℚ) : ℚ :=
  if avgLoss = 0 ∨ avgWin = 0 then 15/100
  else
    let b := avgWin / avgLoss
    let f := (winRate * b - (1 - winRate)) / b
    (max (5/100) (min (45/100) f)) / 2

/-! ### Concrete bars used for counterexamples and witnesses -/

/-- Filler bar used to pad the example dataframe to 30 rows. -/
def dummyBar : Bar :=
  { close := 1, smaShort := 0, smaLong := 0, rsi := some 50, macdHist := some 0,
    bbUpper := 0, bbLower := 0, volume := 0, atr := some 1, vwap := none }

def exPrev2 : Bar := { dummyBar with close := 990 }

def exPrev : Bar :=
  { dummyBar with close := 1000, smaShort := 2, smaLong := 1, macdHist := some 2 }

/-- Latest bar: SMA+ (10), RSI 40 (15), MACD+ (8), pct_1h = 0.3 (6), 3h+ (5):
score 44 without the opening-surge bonus, 54 with it. -/
def exLatest : Bar :=
  { close := 1003, smaShort := 2, smaLong := 1, rsi := some 40, macdHist := some 1,
    bbUpper := 1500, bbLower := 0, volume := 0, atr := some 1, vwap := none }

/-- A 30-row dataframe whose last three rows are exPrev2, exPrev, exLatest. -/
def exDf : List Bar := List.replicate 27 dummyBar ++ [exPrev2, exPrev, exLatest]

/-! ### Claim C1: determinism of compute_momentum_score -/

theorem clampScore_nonneg (raw : ℤ) : 0 ≤ clampScore raw := le_max_left 0 _

theorem clampScore_le_100 (raw : ℤ) : clampScore raw ≤ 100 :=
  max_le (by norm_num) (min_le_left _ _)

theorem rawConfidence_nonneg (s : ℤ) (r : ℚ) : 0 ≤ rawConfidence s r := by
  unfold rawConfidence
  split_ifs with h1 h2
  · have hs : (50 : ℚ) ≤ (s : ℚ) := by exact_mod_cast h1
    linarith
  · norm_num
  · exact le_refl 0

/-- C1 (counterexample): compute_momentum_score is NOT independent of when it
is called.  On the 30-row dataframe exDf the opening-surge bonus applies 10
minutes after the open (score 54, buy) but not 100 minutes after the open
(score 44, hold), so two calls on an identical input bar at different
wall-clock times return different outputs. -/
theorem momentum_not_time_independent :
    computeMomentumScore exDf (some 10) ≠ computeMomentumScore exDf (some 100) := by
  norm_num [computeMomentumScore, exDf, List.replicate, volMean20, openingSurge, pct1hBar,
    exLatest, exPrev, exPrev2, dummyBar, computeCore, clampScore, actionOf, rawConfidence]

/-- C1 (amended): compute_momentum_score is deterministic and side-effect-free
given the input dataframe and the time of the call, and the time of the call
enters the result exclusively through the opening-surge bonus: whenever the
surge condition (0 ≤ minutes since open ≤ 30 and pct_1h > 0.1) evaluates the
same at the two call times, the full outputs — score, action, confidence,
stop-loss and factors — coincide. -/
theorem momentum_deterministic_up_to_surge (df : List Bar) (m1 m2 : Option ℚ)
    (h : openingSurgeOf df m1 = openingSurgeOf df m2) :
    computeMomentumScore df m1 = computeMomentumScore df m2 := by
  unfold computeMomentumScore
  rcases hr : df.reverse with _ | ⟨a, _ | ⟨b, _ | ⟨c, t⟩⟩⟩ <;>
    simp only [openingSurgeOf, hr] at h <;>
    simp [hr, h]

/-- C1 witness: the amended determinism theorem applied at exDf with two
distinct call times inside the opening window. -/
theorem momentum_deterministic_up_to_surge_witness :
    computeMomentumScore exDf (some 5) = computeMomentumScore exDf (some 20) :=
  momentum_deterministic_up_to_surge exDf (some 5) (some 20)
    (by norm_num [openingSurgeOf, exDf, List.replicate, openingSurge, pct1hBar,
      exLatest, exPrev, exPrev2, dummyBar])

/-! ### Claim C7: score and confidence bounds -/

/-- C7: on any dataframe with at least 30 rows, compute_momentum_score
returns a result with score in the range 0..100 and confidence in 0..1. -/
theorem momentum_score_confidence_bounds (df : List Bar) (mins : Option ℚ)
    (h : 30 ≤ df.length) :
    ∃ r : ScoreOk, computeMomentumScore df mins = .ok r ∧
      0 ≤ r.score ∧ r.score ≤ 100 ∧ 0 ≤ r.confidence ∧ r.confidence ≤ 1 := by
  have hlen : 3 ≤ df.reverse.length := by
    rw [List.length_reverse]; omega
  rcases hr : df.reverse with _ | ⟨a, _ | ⟨b, _ | ⟨c, t⟩⟩⟩ <;> rw [hr] at hlen <;>
    simp only [List.length_nil, List.length_cons] at hlen
  · omega
  · omega
  · omega
  refine ⟨computeCore a b c (volMean20 df) (openingSurge (pct1hBar a b) mins), ?_, ?_, ?_, ?_, ?_⟩
  · simp only [computeMomentumScore, hr]
    rw [if_neg (by omega)]
  · exact clampScore_nonneg _
  · exact clampScore_le_100 _
  · exact le_min (rawConfidence_nonneg _ _) (by norm_num)
  · exact min_le_right _ _

/-- C7 witness: the bounds theorem applied to the concrete 30-row exDf. -/
theorem momentum_score_confidence_bounds_witness :
    30 ≤ exDf.length ∧
    ∃ r : ScoreOk, computeMomentumScore exDf none = .ok r ∧
      0 ≤ r.score ∧ r.score ≤ 100 ∧ 0 ≤ r.confidence ∧ r.confidence ≤ 1 :=
  ⟨by simp [exDf], momentum_score_confidence_bounds exDf none (by simp [exDf])⟩

/-! ### Claim C8: kelly_fraction is total and clamped -/

/-- C8: for every win rate, average win and average loss — including the
division-by-zero inputs avg_win = 0 or avg_loss = 0 — kelly_fraction returns
the 0.15 fallback or the halved clamp of the Kelly formula to the 0.05..0.45
band; in all cases the result lies in the band 0.025..0.225, so the function
never leaves its configured range and the zero divisor never reaches the
division. -/
theorem kelly_fraction_clamped (wr aw al : ℚ) :
    (1/40 ≤ kellyFraction wr aw al ∧ kellyFraction wr aw al ≤ 9/40) ∧
    (al = 0 ∨ aw = 0 → kellyFraction wr aw al = 15/100) ∧
    (al ≠ 0 → aw ≠ 0 → kellyFraction wr aw al =
      (max (5/100) (min (45/100) ((wr * (aw/al) - (1 - wr)) / (aw/al)))) / 2) := by
  unfold kellyFraction
  split_ifs with h
  · exact ⟨⟨by norm_num, by norm_num⟩, fun _ => rfl, fun h1 h2 => by tauto⟩
  · push_neg at h
    dsimp only
    have hlo : (5:ℚ)/100 ≤ max (5/100) (min (45/100) ((wr * (aw/al) - (1 - wr)) / (aw/al))) :=
      le_max_left _ _
    have hhi : max (5/100) (min (45/100) ((wr * (aw/al) - (1 - wr)) / (aw/al))) ≤ 45/100 :=
      max_le (by norm_num) (min_le_left _ _)
    exact ⟨⟨by linarith, by linarith⟩, fun hc => absurd hc (by tauto), fun _ _ => rfl⟩

/-- C8 witness: kelly_fraction at the default stats (0.55, 0.015, 0.01) and
at the division-by-zero input (0.55, 0, 0.01). -/
theorem kelly_fraction_clamped_witness :
    kellyFraction (55/100) (15/1000) (1/100) = 1/8 ∧
    kellyFraction (55/100) 0 (1/100) = 15/100 := by
  refine ⟨?_, (kelly_fraction_clamped (55/100) 0 (1/100)).2.1 (Or.inr rfl)⟩
  have h := (kelly_fraction_clamped (55/100) (15/1000) (1/100)).2.2 (by norm_num) (by norm_num)
  rw [h]
  norm_num

/-! ## Risk state and dynamic sizing (advanced_risk.py, AdvancedRiskManager) -/

/-- The record persisted in risk_state.json. -/
structure RiskState where
  consecutiveWins : ℕ
  consecutiveLosses : ℕ
  dailyPnl : ℚ
  lastUpdate : String
deriving DecidableEq

/-- Configuration read from the environment in AdvancedRiskManager init
(TRADING212_RISK_PER_TRADE, TRADING212_MAX_DAILY_LOSS_PCT). -/
structure RiskConfig where
  baseRisk : ℚ := 12/100
  maxDailyLossPct : ℚ := 5/100
deriving DecidableEq

/-- get_dynamic_risk(): day-boundary reset of daily_pnl, then the circuit
breaker, loss-streak scaling, win-streak boost with its 0.28 cap, and the
profit-reinvestment boost with its 0.30 cap.  Returns the risk fraction and
the state as saved.  today abstracts datetime.now's calendar date. -/
def getDynamicRisk (cfg : RiskConfig) (state0 : RiskState) (today : String) :
    ℚ × RiskState :=
  let state := if state0.lastUpdate ≠ today then
      { state0 with dailyPnl := 0, lastUpdate := today } else state0
  if state.dailyPnl ≤ -cfg.maxDailyLossPct then (0, state)
  else
    let risk1 := cfg.baseRisk
    let risk2 := if 3 ≤ state.consecutiveLosses then risk1 * 6/10
        else if 2 ≤ state.consecutiveLosses then risk1 * 75/100
        else risk1
    let risk3 := if 3 ≤ state.consecutiveWins then min (risk2 * 13/10) (28/100)
        else if 2 ≤ state.consecutiveWins then risk2 * 115/100
        else risk2
    let risk4 := if 0 < state.dailyPnl then
        min (risk3 * (1 + state.dailyPnl * 5/100)) (30/100)
      else risk3
    (risk4, state)

/-- update_trade_result(ticker, pnl): realize P&L into daily_pnl and update
the win/loss streaks; pnl > 0 counts as a win, anything else as a loss. -/
def updateTradeResult (state : RiskState) (pnl : ℚ) : RiskState :=
  let s1 := { state with dailyPnl := state.dailyPnl + pnl }
  if 0 < pnl then
    { s1 with consecutiveWins := s1.consecutiveWins + 1, consecutiveLosses := 0 }
  else
    { s1 with consecutiveLosses := s1.consecutiveLosses + 1, consecutiveWins := 0 }

/-! ### Claim C2: circuit breaker -/

/-- C2 (counterexample): the claim quantifies over every STORED risk state
with daily_pnl ≤ -max_daily_loss_pct, but get_dynamic_risk first resets
daily_pnl to 0 when the stored last_update is not today's date: a stored
state with daily_pnl = -0.06 from 2025-01-01, read on 2025-01-02, yields the
full base risk 0.12 instead of 0. -/
theorem circuit_breaker_stale_state_counterexample :
    (⟨0, 0, -6/100, "2025-01-01"⟩ : RiskState).dailyPnl ≤ -(5/100 : ℚ) ∧
    (getDynamicRisk {} ⟨0, 0, -6/100, "2025-01-01"⟩ "2025-01-02").1 = 12/100 := by
  have hne : ¬ (("2025-01-01" : String) = "2025-01-02") := by decide
  constructor
  · norm_num
  · norm_num [getDynamicRisk, hne]

/-- C2 (amended): for every stored risk state belonging to the current day
(last_update = today) with daily_pnl ≤ -max_daily_loss_pct, and for every
combination of consecutive_wins and consecutive_losses, get_dynamic_risk
returns exactly 0. -/
theorem circuit_breaker_blocks_sizing (cfg : RiskConfig) (s : RiskState) (today : String)
    (hday : s.lastUpdate = today) (hloss : s.dailyPnl ≤ -cfg.maxDailyLossPct) :
    (getDynamicRisk cfg s today).1 = 0 := by
  simp [getDynamicRisk, hday, hloss]

/-- C2 witness: the breaker at daily_pnl = -0.06 against the default 5% cap,
with a live win streak that would otherwise boost risk. -/
theorem circuit_breaker_blocks_sizing_witness :
    (⟨5, 0, -6/100, "2025-01-02"⟩ : RiskState).lastUpdate = "2025-01-02" ∧
    (⟨5, 0, -6/100, "2025-01-02"⟩ : RiskState).dailyPnl ≤ -(({} : RiskConfig).maxDailyLossPct) ∧
    (getDynamicRisk {} ⟨5, 0, -6/100, "2025-01-02"⟩ "2025-01-02").1 = 0 :=
  ⟨rfl, by norm_num,
    circuit_breaker_blocks_sizing {} ⟨5, 0, -6/100, "2025-01-02"⟩ "2025-01-02" rfl (by norm_num)⟩

/-! ## Position ledger and exit scans (advanced_risk.py and live_trader.py) -/

/-- One entry of open_positions.json.  highPrice is the optional high_price
key maintained by check_intraday_profits; isOpen models status == OPEN. -/
structure Position where
  ticker : String
  quantity : ℚ
  entryPrice : ℚ
  currentPrice : ℚ
  atr : ℚ
  stopLoss : ℚ
  profitTarget : ℚ
  partialTaken : Bool
  highPrice : Option ℚ
  isOpen : Bool
deriving DecidableEq

/-- calculate_trailing_stop(entry_price, current_price, atr): move to
at-least-breakeven after a 1% gain, otherwise 2 ATR below entry. -/
def calculateTrailingStop (entryPrice currentPrice atr : ℚ) : ℚ :=
  let gainPct := (currentPrice - entryPrice) / entryPrice
  if 1/100 ≤ gainPct then max entryPrice (entryPrice + atr * 1/2)
  else entryPrice - atr * 2

/-- update_position(ticker, current_price): store the price and recompute the
trailing stop from scratch (no position or closed position is left as is). -/
def updatePosition (pos : Position) (currentPrice : ℚ) : Position :=
  if pos.isOpen then
    { pos with currentPrice := currentPrice,
               stopLoss := calculateTrailingStop pos.entryPrice currentPrice pos.atr }
  else pos

/-- should_take_partial_profit: 70% off once price reaches half the
2-ATR risk distance above entry. -/
def shouldTakePartialProfit (entryPrice currentPrice atr : ℚ) : Bool × ℚ :=
  let risk := atr * 2
  let targetHalf := entryPrice + risk * 1/2
  if targetHalf ≤ currentPrice then (true, 7/10) else (false, 0)

inductive ExitAction
  | sell
  | sellPartial
deriving DecidableEq

/-- The reason tags of the exit dicts produced by the three exit scans. -/
inductive ExitReason
  | stopLoss
  | profitTarget1x
  | profitTargetFull
  | bigProfit
  | quickProfit
  | trailingStop
  | deepLossCut
  | recycle
deriving DecidableEq

structure ExitSignal where
  ticker : String
  action : ExitAction
  reason : ExitReason
  price : ℚ
  portion : ℚ
deriving DecidableEq

/-- check_exit_signals, for one open position at the freshly fetched price.
The scan updates the stored position first, but its stop-loss comparison reads
the (pre-scan) dict entry, and when the partial fires the scan dict — with the
pre-update stop and current price and partial_taken set — is what gets saved,
overwriting update_position's write.  The three conditions are independent
if-statements, so one bar can append several signals. -/
def checkExitSignalsFor (pos : Position) (currentPrice : ℚ) : Position × List ExitSignal :=
  if ¬ pos.isOpen then (pos, [])
  else
    let posU := updatePosition pos currentPrice
    let stopSigs := if currentPrice ≤ pos.stopLoss then
        [⟨pos.ticker, .sell, .stopLoss, currentPrice, 1⟩] else []
    let takePartial := (shouldTakePartialProfit pos.entryPrice currentPrice pos.atr).1
    let partialSigs := if takePartial ∧ ¬ pos.partialTaken then
        [⟨pos.ticker, .sellPartial, .profitTarget1x, currentPrice,
          (shouldTakePartialProfit pos.entryPrice currentPrice pos.atr).2⟩] else []
    let fullSigs := if pos.profitTarget ≤ currentPrice then
        [⟨pos.ticker, .sell, .profitTargetFull, currentPrice, 1⟩] else []
    let posAfter := if takePartial ∧ ¬ pos.partialTaken then
        { pos with partialTaken := true } else posU
    (posAfter, stopSigs ++ partialSigs ++ fullSigs)

/-- pnl_pct as computed by check_intraday_profits (in percent). -/
def pnlPctOf (pos : Position) : ℚ :=
  (pos.currentPrice - pos.entryPrice) / pos.entryPrice * 100

/-- The trailing-stop reference high: the stored high_price defaulted to the
current price, raised to the current price when exceeded. -/
def highOf (pos : Position) : ℚ :=
  let h := pos.highPrice.getD pos.currentPrice
  if h < pos.currentPrice then pos.currentPrice else h

/-- check_intraday_profits, for one open position, using the stored current
price.  A single if/elif chain: big profit (≥15%) sells all, else quick
profit (≥5%) sells half, else the from-peak trailing stop, else the deep
loss cut (≤ -8%). -/
def checkIntradayProfitsFor (pos : Position) : Position × List ExitSignal :=
  if ¬ pos.isOpen then (pos, [])
  else if pos.entryPrice ≤ 0 ∨ pos.quantity ≤ 0 then (pos, [])
  else
    let pnlPct := pnlPctOf pos
    let high := highOf pos
    let pos1 := if (pos.highPrice.getD pos.currentPrice) < pos.currentPrice then
        { pos with highPrice := some pos.currentPrice } else pos
    let sigs : List ExitSignal :=
      if 15 ≤ pnlPct then
        [⟨pos.ticker, .sell, .bigProfit, pos.currentPrice, 1⟩]
      else if 5 ≤ pnlPct then
        [⟨pos.ticker, .sellPartial, .quickProfit, pos.currentPrice, 1/2⟩]
      else if pos.entryPrice * 103/100 < high ∧ pos.currentPrice < high - pos.atr * 3/2 then
        [⟨pos.ticker, .sell, .trailingStop, pos.currentPrice, 1⟩]
      else if pnlPct ≤ -8 then
        [⟨pos.ticker, .sell, .deepLossCut, pos.currentPrice, 1⟩]
      else []
    (pos1, sigs)

/-- check_stale_positions, for one open position: held longer than max_hours
(default 6) and moved less than min_move_pct (default 0.3%). -/
def checkStalePositionFor (pos : Position) (hoursHeld : ℚ) : List ExitSignal :=
  if ¬ pos.isOpen then []
  else if hoursHeld < 6 then []
  else if (pos.currentPrice - pos.entryPrice) / pos.entryPrice * 100 < 3/10 then
    [⟨pos.ticker, .sell, .recycle, pos.currentPrice, 1⟩]
  else []

/-- One orchestrator cycle for a single open position, as sequenced by
execute_live_trading: phase 0 refreshes the stored price and trailing stop,
then the stale scan, the stop/target exit scan and the intraday profit scan
run in that order against the persisted state, and the signal lists are
concatenated as profit_exits ++ stale_exits ++ exit_signals. -/
def tradingCycle (pos : Position) (price : ℚ) (hoursHeld : ℚ) :
    Position × List ExitSignal :=
  let p0 := updatePosition pos price
  let staleSigs := checkStalePositionFor p0 hoursHeld
  let (p1, exitSigs) := checkExitSignalsFor p0 price
  let (p2, intradaySigs) := checkIntradayProfitsFor p1
  (p2, intradaySigs ++ staleSigs ++ exitSigs)

/-! ### Claim C3: trailing stop never loosens -/

/-- A position entered at 100 with atr 1, used in the C3 counterexample. -/
def c3Pos : Position :=
  { ticker := "MSFT", quantity := 1, entryPrice := 100, currentPrice := 100, atr := 1,
    stopLoss := 98, profitTarget := 102, partialTaken := false, highPrice := none,
    isOpen := true }

/-- C3 (counterexample): update_position recomputes the stop from scratch on
every call, so the stop CAN move down while the position is still in profit:
after the price touches 101 (+1%) the stop is 100.5, and a further update at
100.5 — still above the 100 entry — drops the stop back to 98. -/
theorem trailing_stop_recomputed_downward_counterexample :
    (updatePosition c3Pos 101).stopLoss = 201/2 ∧
    (updatePosition (updatePosition c3Pos 101) (201/2)).stopLoss = 98 ∧
    ((98 : ℚ) < 201/2 ∧ c3Pos.entryPrice < 201/2 ∧ c3Pos.entryPrice < 101) := by
  refine ⟨?_, ?_, by norm_num [c3Pos]⟩ <;>
    norm_num [updatePosition, calculateTrailingStop, c3Pos]

theorem calculateTrailingStop_mono (e atr p1 p2 : ℚ) (he : 0 < e) (ha : 0 ≤ atr)
    (h : p1 ≤ p2) : calculateTrailingStop e p1 atr ≤ calculateTrailingStop e p2 atr := by
  have hg : (p1 - e) / e ≤ (p2 - e) / e := by gcongr
  unfold calculateTrailingStop
  dsimp only
  split_ifs with h1 h2 h3
  · exact le_rfl
  · linarith
  · exact le_trans (by linarith) (le_max_left _ _)
  · exact le_rfl

/-- C3 (amended): the stored stop_loss is non-decreasing across successive
update_position calls with non-decreasing prices (trailing-stop never loosens
while the price keeps rising); but the stop is recomputed fresh from the
current price on every call, so when the price pulls back below the +1% gain
threshold while still in profit the stop falls from entry + 0.5 atr back to
entry - 2 atr (see the counterexample). -/
theorem update_position_stop_monotone (pos : Position) (p1 p2 : ℚ)
    (hopen : pos.isOpen = true) (he : 0 < pos.entryPrice) (ha : 0 ≤ pos.atr)
    (h : p1 ≤ p2) :
    (updatePosition pos p1).stopLoss ≤ (updatePosition pos p2).stopLoss := by
  simp only [updatePosition, hopen, if_true]
  exact calculateTrailingStop_mono _ _ _ _ he ha h

/-- C3 witness: the monotonicity theorem applied to c3Pos with prices
100 then 101. -/
theorem update_position_stop_monotone_witness :
    (updatePosition c3Pos 100).stopLoss ≤ (updatePosition c3Pos 101).stopLoss :=
  update_position_stop_monotone c3Pos 100 101 rfl (by norm_num [c3Pos])
    (by norm_num [c3Pos]) (by norm_num)

/-! ### Claim C6: one exit signal per position, fixed precedence -/

/-- A position at +3% above its profit target with the partial not yet taken,
used in the C6 counterexample. -/
def c6Pos : Position :=
  { ticker := "AAPL", quantity := 1, entryPrice := 100, currentPrice := 103, atr := 1,
    stopLoss := 98, profitTarget := 102, partialTaken := false, highPrice := none,
    isOpen := true }

/-- C6 (counterexample): the stop/target scan check_exit_signals evaluates its
conditions as independent if-statements, not an elif chain: at price 103 a
position entered at 100 with atr 1 and target 102 emits BOTH the partial
profit signal and the full profit-target signal in the same bar — two exit
signals for one position, so the scans do not emit exactly one signal. -/
theorem exit_scan_two_signals_counterexample :
    (checkExitSignalsFor c6Pos 103).2 =
      [⟨"AAPL", .sellPartial, .profitTarget1x, 103, 7/10⟩,
       ⟨"AAPL", .sell, .profitTargetFull, 103, 1⟩] ∧
    (checkExitSignalsFor c6Pos 103).2.length = 2 := by
  constructor <;>
    norm_num [checkExitSignalsFor, shouldTakePartialProfit, updatePosition,
      calculateTrailingStop, c6Pos]

/-- C6 (amended): the intraday scan check_intraday_profits emits at most one
signal per position, chosen by the elif-chain precedence big-profit >
quick-profit > trailing-stop > deep-loss (the first matching condition wins
and suppresses the rest); the stop-loss, partial-profit and full-target
conditions live in the separate check_exit_signals scan, which is a sequence
of independent ifs and can emit more than one signal per position, and in the
combined cycle the intraday signals are processed before the stop/target
signals rather than after a stop-loss check. -/
theorem intraday_exits_at_most_one_with_precedence (pos : Position) :
    ((checkIntradayProfitsFor pos).2.length ≤ 1) ∧
    (pos.isOpen = true → 0 < pos.entryPrice → 0 < pos.quantity →
      ((15 ≤ pnlPctOf pos → (checkIntradayProfitsFor pos).2 =
          [⟨pos.ticker, .sell, .bigProfit, pos.currentPrice, 1⟩]) ∧
       (pnlPctOf pos < 15 → 5 ≤ pnlPctOf pos → (checkIntradayProfitsFor pos).2 =
          [⟨pos.ticker, .sellPartial, .quickProfit, pos.currentPrice, 1/2⟩]) ∧
       (pnlPctOf pos < 5 →
        pos.entryPrice * 103/100 < highOf pos ∧ pos.currentPrice < highOf pos - pos.atr * 3/2 →
        (checkIntradayProfitsFor pos).2 =
          [⟨pos.ticker, .sell, .trailingStop, pos.currentPrice, 1⟩]) ∧
       (pnlPctOf pos < 5 →
        ¬ (pos.entryPrice * 103/100 < highOf pos ∧ pos.currentPrice < highOf pos - pos.atr * 3/2) →
        pnlPctOf pos ≤ -8 → (checkIntradayProfitsFor pos).2 =
          [⟨pos.ticker, .sell, .deepLossCut, pos.currentPrice, 1⟩]))) := by
  constructor
  · unfold checkIntradayProfitsFor
    dsimp only
    split_ifs <;> simp
  · intro hopen he hq
    have hvalid : ¬ (pos.entryPrice ≤ 0 ∨ pos.quantity ≤ 0) := by
      rw [not_or]
      exact ⟨not_le.mpr he, not_le.mpr hq⟩
    refine ⟨?_, ?_, ?_, ?_⟩ <;> unfold checkIntradayProfitsFor <;> dsimp only <;>
      rw [if_neg (by simp [hopen]), if_neg hvalid]
    · intro h15
      rw [if_pos h15]
    · intro h15 h5
      rw [if_neg (not_le.mpr h15), if_pos h5]
    · intro h5 htrail
      rw [if_neg (by linarith : ¬ (15:ℚ) ≤ pnlPctOf pos), if_neg (not_le.mpr h5),
        if_pos htrail]
    · intro h5 htrail h8
      rw [if_neg (by linarith : ¬ (15:ℚ) ≤ pnlPctOf pos), if_neg (not_le.mpr h5),
        if_neg htrail, if_pos h8]

/-- A position up 16%, used as the C6 witness input. -/
def c6BigPos : Position :=
  { ticker := "TSLA", quantity := 1, entryPrice := 100, currentPrice := 116, atr := 1,
    stopLoss := 98, profitTarget := 102, partialTaken := false, highPrice := none,
    isOpen := true }

/-- C6 witness: the precedence theorem applied to a position that is up 16%
(big profit wins, a single SELL signal). -/
theorem intraday_exits_at_most_one_with_precedence_witness :
    (checkIntradayProfitsFor c6BigPos).2 = [⟨"TSLA", .sell, .bigProfit, 116, 1⟩] :=
  ((intraday_exits_at_most_one_with_precedence c6BigPos).2 rfl (by norm_num [c6BigPos])
    (by norm_num [c6BigPos])).1 (by norm_num [pnlPctOf, c6BigPos])

/-! ### Claim C9: scenario D — entry 50, atr 1, prices 50.6, 48.5, 48.0 -/

/-- Scenario D position: entered at 50.00 with atr 1.0, stop 48, target 52. -/
def scPos : Position :=
  { ticker := "NVDA", quantity := 1, entryPrice := 50, currentPrice := 50, atr := 1,
    stopLoss := 48, profitTarget := 52, partialTaken := false, highPrice := none,
    isOpen := true }

/-- C9 (counterexample): the stop does NOT remain at 50 - 2*1 = 48: after the
price rises to 50.6 (gain +1.2% ≥ 1%) the cycle's update_position moves the
stop to max(50, 50 + 0.5*1) = 50.5. -/
theorem scenario_d_stop_moves_counterexample :
    (tradingCycle scPos (253/5) 1).1.stopLoss = 101/2 ∧ ((101:ℚ)/2 ≠ 48) := by
  constructor
  · norm_num [tradingCycle, updatePosition, calculateTrailingStop, scPos,
      checkExitSignalsFor, checkIntradayProfitsFor, checkStalePositionFor,
      shouldTakePartialProfit, pnlPctOf, highOf]
  · norm_num

/-- C9 (amended): in scenario D the stop rises to 50.5 at +1.2%, and when the
price falls to 48.5 the recomputed stop is 48 again, so no exit fires at 48.5
(the deep-loss cut needs -8%, the -3% move does not trigger it, and 48.5 is
above the 48 stop): the position remains open; the stop-loss check then fires
exactly at the boundary price 48.0 as the only exit signal of that cycle. -/
theorem scenario_d_exit_behaviour :
    (tradingCycle scPos (253/5) 1).2 = [] ∧
    (tradingCycle scPos (253/5) 1).1.stopLoss = 101/2 ∧
    (tradingCycle (tradingCycle scPos (253/5) 1).1 (97/2) 2).2 = [] ∧
    (tradingCycle (tradingCycle scPos (253/5) 1).1 (97/2) 2).1.stopLoss = 48 ∧
    (tradingCycle (tradingCycle scPos (253/5) 1).1 (97/2) 2).1.isOpen = true ∧
    (tradingCycle (tradingCycle (tradingCycle scPos (253/5) 1).1 (97/2) 2).1 48 3).2 =
      [⟨"NVDA", .sell, .stopLoss, 48, 1⟩] := by
  refine ⟨?_, ?_, ?_, ?_, ?_, ?_⟩ <;>
    norm_num [tradingCycle, updatePosition, calculateTrailingStop, scPos,
      checkExitSignalsFor, checkIntradayProfitsFor, checkStalePositionFor,
      shouldTakePartialProfit, pnlPctOf, highOf]

/-! ## The brain (smartbot_brain.py, SmartBotBrain) -/

/-- Model of Python float() restricted to the plain decimal literals the
factor formatter produces (optional sign, digits, optional fraction).
Strings float() would reject map to none, the except-branch of the caller. -/
def digitsVal (cs : List Char) : ℕ :=
  cs.foldl (fun acc c => acc * 10 + (c.toNat - 48)) 0

def parseFloat (s : String) : Option ℚ :=
  let cs := s.toList
  let signRest : ℚ × List Char :=
    match cs with
    | '+' :: r => (1, r)
    | '-' :: r => (-1, r)
    | r => (1, r)
  let intPart := signRest.2.takeWhile Char.isDigit
  let rest2 := signRest.2.dropWhile Char.isDigit
  match rest2 with
  | [] => if intPart = [] then none else some (signRest.1 * digitsVal intPart)
  | '.' :: frac =>
      if frac.all Char.isDigit ∧ (intPart ≠ [] ∨ frac ≠ []) then
        some (signRest.1 * ((digitsVal intPart : ℚ) + (digitsVal frac : ℚ) / 10 ^ frac.length))
      else none
  | _ => none

/-- _normalize_factor: collapse RSI and momentum factor labels into zone
names so magnitude noise does not fragment the statistics. -/
def normalizeFactor (factor : String) : String :=
  if factor.startsWith "RSI:" then
    match parseFloat ((factor.drop 4).dropRightWhile (fun c => c = '*' || c = '!' || c = 'X')) with
    | some v =>
        if v < 30 then "RSI:oversold"
        else if v ≤ 50 then "RSI:buy_zone"
        else if v ≤ 65 then "RSI:neutral"
        else "RSI:overbought"
    | none => factor
  else if factor.startsWith "+" || factor.startsWith "-" then
    match parseFloat (factor.dropRightWhile (fun c => c = '%' || c = '!')) with
    | some p =>
        if 1/2 < p then "momentum:strong_up"
        else if 0 < p then "momentum:up"
        else if p < -(1/2) then "momentum:strong_down"
        else "momentum:down"
    | none => factor
  else factor

/-- Per-ticker memory entry, with the zero defaults of learn_from_trade. -/
structure TickerMem where
  wins : ℕ := 0
  losses : ℕ := 0
  totalPnl : ℚ := 0
  avgPnl : ℚ := 0
  bestTrade : ℚ := 0
  worstTrade : ℚ := 0
  totalTrades : ℕ := 0
  winStreak : ℕ := 0
  loseStreak : ℕ := 0
  lastTrade : String := ""
  avgHoldHours : ℚ := 0
deriving DecidableEq

/-- Per-factor memory entry. -/
structure FactorMem where
  wins : ℕ := 0
  losses : ℕ := 0
  totalPnl : ℚ := 0
  avgPnl : ℚ := 0
deriving DecidableEq

/-- The slice of adaptive_params that the intelligence queries read. -/
structure AdaptiveParams where
  confidenceBoostTickers : List (String × ℚ) := []
  confidencePenaltyTickers : List (String × ℚ) := []
deriving DecidableEq

/-- smartbot_brain.json, restricted to the tables the intelligence queries and
learn_from_trade's outcome statistics read and write.  Dicts are association
lists; assignment is modelled by shadowing insertion at the head, which
List.lookup resolves exactly like a dict read. -/
structure Brain where
  tickerMemory : List (String × TickerMem) := []
  factorMemory : List (String × FactorMem) := []
  regimeWins : List (String × ℕ) := [("trend", 0), ("range", 0), ("volatile", 0), ("normal", 0)]
  regimeLosses : List (String × ℕ) := [("trend", 0), ("range", 0), ("volatile", 0), ("normal", 0)]
  hourWins : List (String × ℕ) := []
  hourLosses : List (String × ℕ) := []
  adaptiveParams : AdaptiveParams := {}
deriving DecidableEq

def stripUsEq (t : String) : String := t.replace "_US_EQ" ""

/-- The ticker-memory section of learn_from_trade: totals, averages and the
win/loss streak bookkeeping, with is_win = pnl > 0. -/
def learnTickerUpdate (tm0 : Option TickerMem) (pnl holdHours : ℚ) (ts : String) : TickerMem :=
  let t := tm0.getD {}
  let n := t.totalTrades + 1
  let totalPnl := t.totalPnl + pnl
  let base : TickerMem :=
    { t with totalTrades := n, totalPnl := totalPnl, avgPnl := totalPnl / (n : ℚ),
             lastTrade := ts,
             avgHoldHours := (t.avgHoldHours * ((t.totalTrades : ℚ)) + holdHours) / (n : ℚ) }
  if 0 < pnl then
    { base with wins := base.wins + 1, winStreak := base.winStreak + 1, loseStreak := 0,
                bestTrade := max base.bestTrade pnl }
  else
    { base with losses := base.losses + 1, loseStreak := base.loseStreak + 1, winStreak := 0,
                worstTrade := min base.worstTrade pnl }

/-- learn_from_trade, restricted to the outcome-statistics tables: ticker
memory and the regime / hour win-loss counters.  The regime counter is only
bumped when the regime key already exists; the hour counter is created on
demand — exactly as in the source. -/
def learnFromTrade (brain : Brain) (ticker : String) (pnl holdHours : ℚ) (ts : String)
    (regime hour : String) : Brain :=
  let tkey := stripUsEq ticker
  let tm := learnTickerUpdate (brain.tickerMemory.lookup tkey) pnl holdHours ts
  let isWin := decide (0 < pnl)
  let regimeWins := if isWin ∧ (brain.regimeWins.lookup regime).isSome then
      (regime, (brain.regimeWins.lookup regime).getD 0 + 1) :: brain.regimeWins
    else brain.regimeWins
  let regimeLosses := if ¬ isWin ∧ (brain.regimeLosses.lookup regime).isSome then
      (regime, (brain.regimeLosses.lookup regime).getD 0 + 1) :: brain.regimeLosses
    else brain.regimeLosses
  let hourWins := if isWin then
      (hour, (brain.hourWins.lookup hour).getD 0 + 1) :: brain.hourWins
    else brain.hourWins
  let hourLosses := if ¬ isWin then
      (hour, (brain.hourLosses.lookup hour).getD 0 + 1) :: brain.hourLosses
    else brain.hourLosses
  { brain with tickerMemory := (tkey, tm) :: brain.tickerMemory,
               regimeWins := regimeWins, regimeLosses := regimeLosses,
               hourWins := hourWins, hourLosses := hourLosses }

/-- The dict returned by get_ticker_score (the best/worst keys of the
experienced branch are omitted; nothing downstream reads them). -/
structure TickerScore where
  confidenceMult : ℚ
  reason : String
  winRate : ℚ
  avgPnl : ℚ
  trades : ℕ
deriving DecidableEq

/-- get_ticker_score: neutral 1.0 below 2 trades, otherwise the stored
boost/penalty multiplier adjusted by hot/cold streaks.  Reason tags keep the
source's text without the emoji prefix. -/
def getTickerScore (brain : Brain) (ticker0 : String) : TickerScore :=
  let ticker := stripUsEq ticker0
  match brain.tickerMemory.lookup ticker with
  | none => { confidenceMult := 1, reason := "new_ticker", winRate := 1/2, avgPnl := 0, trades := 0 }
  | some tm =>
    if tm.totalTrades < 2 then
      { confidenceMult := 1, reason := "new_ticker", winRate := 1/2, avgPnl := 0, trades := 0 }
    else
      let winRate := (tm.wins : ℚ) / (tm.totalTrades : ℚ)
      let mult0 := ((brain.adaptiveParams.confidenceBoostTickers.lookup ticker).getD
        ((brain.adaptiveParams.confidencePenaltyTickers.lookup ticker).getD 1))
      let mr : ℚ × String :=
        if 3 ≤ tm.winStreak then (mult0 * 11/10, "hot_streak(" ++ toString tm.winStreak ++ ")")
        else if 3 ≤ tm.loseStreak then (mult0 * 8/10, "cold_streak(" ++ toString tm.loseStreak ++ ")")
        else if 6/10 ≤ winRate then (mult0, "winner(" ++ fmt0 (winRate * 100) ++ "%)")
        else if winRate ≤ 35/100 then (mult0, "loser(" ++ fmt0 (winRate * 100) ++ "%)")
        else (mult0, "neutral(" ++ fmt0 (winRate * 100) ++ "%)")
      { confidenceMult := roundN mr.1 3, reason := mr.2,
        winRate := roundN winRate 3, avgPnl := roundN tm.avgPnl 4,
        trades := tm.totalTrades }

structure FactorScore where
  factorMult : ℚ
  goodFactors : List String
  badFactors : List String
deriving DecidableEq

/-- One iteration of get_factor_score's loop over the input factors. -/
def factorStep (fm : List (String × FactorMem)) (acc : ℚ × List String × List String)
    (factor : String) : ℚ × List String × List String :=
  let key := normalizeFactor factor
  match fm.lookup key with
  | none => acc
  | some st =>
      let total := st.wins + st.losses
      if 2 ≤ total then
        let wr := (st.wins : ℚ) / (total : ℚ)
        if 6/10 ≤ wr then (acc.1 * (1 + (wr - 1/2) * 1/5), acc.2.1 ++ [key], acc.2.2)
        else if wr ≤ 35/100 then (acc.1 * (1 - (1/2 - wr) * 1/5), acc.2.1, acc.2.2 ++ [key])
        else acc
      else acc

/-- get_factor_score: compose per-factor multipliers, then clamp the net
multiplier to the 0.7..1.3 band. -/
def getFactorScore (brain : Brain) (factors : List String) : FactorScore :=
  let r := factors.foldl (factorStep brain.factorMemory) (1, [], [])
  { factorMult := roundN (max (7/10) (min (13/10) r.1)) 3,
    goodFactors := r.2.1, badFactors := r.2.2 }

/-- get_regime_score: neutral below 3 observations, otherwise a win-rate
scaled multiplier clamped to 0.7..1.2. -/
def getRegimeScore (brain : Brain) (regime : String) : ℚ :=
  let wins := (brain.regimeWins.lookup regime).getD 0
  let losses := (brain.regimeLosses.lookup regime).getD 0
  if wins + losses < 3 then 1
  else
    let wr := (wins : ℚ) / ((wins + losses : ℕ) : ℚ)
    if 6/10 ≤ wr then min (12/10) (1 + (wr - 1/2) * 4/10)
    else if wr ≤ 35/100 then max (7/10) (1 - (1/2 - wr) * 4/10)
    else 1

/-- get_time_score: the current ET hour's track record; hour abstracts
datetime.now(ET).hour formatted as a string. -/
def getTimeScore (brain : Brain) (hour : String) : ℚ :=
  let wins := (brain.hourWins.lookup hour).getD 0
  let losses := (brain.hourLosses.lookup hour).getD 0
  if wins + losses < 3 then 1
  else
    let wr := (wins : ℚ) / ((wins + losses : ℕ) : ℚ)
    if 6/10 ≤ wr then 11/10
    else if wr ≤ 35/100 then 85/100
    else 1

/-- The dict returned by get_combined_intelligence. -/
structure CombinedIntel where
  confidenceMult : ℚ
  reasons : List String
  tickerTrades : ℕ
  tickerWinrate : ℚ
  tickerAvgPnl : ℚ
deriving DecidableEq

/-- get_combined_intelligence: the product of the four axis multipliers,
clamped to 0.5..1.5, with the human-readable reason list (reason strings keep
the source's content without emoji). -/
def getCombinedIntelligence (brain : Brain) (ticker : String) (factors : List String)
    (regime : String) (hour : String) : CombinedIntel :=
  let ti := getTickerScore brain ticker
  let fi := getFactorScore brain factors
  let rm := getRegimeScore brain regime
  let tmu := getTimeScore brain hour
  let combined := max (1/2) (min (3/2) (ti.confidenceMult * fi.factorMult * rm * tmu))
  let reasons := [ti.reason]
    ++ (if fi.goodFactors ≠ [] then
        ["factors:" ++ String.intercalate "," (fi.goodFactors.take 3)] else [])
    ++ (if fi.badFactors ≠ [] then
        ["factors!:" ++ String.intercalate "," (fi.badFactors.take 3)] else [])
    ++ (if rm ≠ 1 then ["regime:" ++ regime] else [])
    ++ (if tmu ≠ 1 then ["time"] else [])
  { confidenceMult := roundN combined 3, reasons := reasons,
    tickerTrades := ti.trades, tickerWinrate := ti.winRate, tickerAvgPnl := ti.avgPnl }

/-! ### Claim C4: combined intelligence bounds and neutral axes -/

theorem roundN_half_le (x : ℚ) :
    1/2 ≤ roundN (max (1/2) (min (3/2) x)) 3 := by
  have hq : (1/2 : ℚ) ≤ max (1/2) (min (3/2) x) := le_max_left _ _
  have h1 : ((500 : ℤ) : ℚ) ≤ max (1/2) (min (3/2) x) * 10 ^ 3 := by
    push_cast
    nlinarith
  have h3 : ((500 : ℤ) : ℚ) ≤ ((rhe (max (1/2) (min (3/2) x) * 10 ^ 3) : ℤ) : ℚ) := by
    exact_mod_cast le_rhe h1
  unfold roundN
  rw [le_div_iff₀ (by norm_num : (0:ℚ) < 10 ^ 3)]
  push_cast at h3 ⊢
  linarith

theorem roundN_le_three_half (x : ℚ) :
    roundN (max (1/2) (min (3/2) x)) 3 ≤ 3/2 := by
  have hq : max (1/2) (min (3/2) x) ≤ (3/2 : ℚ) :=
    max_le (by norm_num) (min_le_left _ _)
  have h1 : max (1/2) (min (3/2) x) * 10 ^ 3 ≤ ((1500 : ℤ) : ℚ) := by
    push_cast
    nlinarith
  have h3 : ((rhe (max (1/2) (min (3/2) x) * 10 ^ 3) : ℤ) : ℚ) ≤ ((1500 : ℤ) : ℚ) := by
    exact_mod_cast rhe_le h1
  unfold roundN
  rw [div_le_iff₀ (by norm_num : (0:ℚ) < 10 ^ 3)]
  push_cast at h3 ⊢
  linarith

theorem roundN_one : roundN 1 3 = 1 := by
  norm_num [roundN, rhe]

/-- C4: for every brain state, ticker, factor list, regime and hour, the
combined-intelligence confidence multiplier lies in 0.5..1.5; and every axis
with zero qualifying observations — a ticker with fewer than 2 recorded
trades, factors none of which have 2 qualifying observations, a regime with
fewer than 3 observations, an hour with fewer than 3 observations —
contributes a factor of exactly 1.0 to the product. -/
theorem combined_intelligence_bounds_and_neutral (brain : Brain) (ticker : String)
    (factors : List String) (regime hour : String) :
    (1/2 ≤ (getCombinedIntelligence brain ticker factors regime hour).confidenceMult ∧
     (getCombinedIntelligence brain ticker factors regime hour).confidenceMult ≤ 3/2) ∧
    ((∀ tm, brain.tickerMemory.lookup (stripUsEq ticker) = some tm → tm.totalTrades < 2) →
      (getTickerScore brain ticker).confidenceMult = 1) ∧
    ((∀ f ∈ factors, ∀ st, brain.factorMemory.lookup (normalizeFactor f) = some st →
        st.wins + st.losses < 2) →
      (getFactorScore brain factors).factorMult = 1) ∧
    ((brain.regimeWins.lookup regime).getD 0 + (brain.regimeLosses.lookup regime).getD 0 < 3 →
      getRegimeScore brain regime = 1) ∧
    ((brain.hourWins.lookup hour).getD 0 + (brain.hourLosses.lookup hour).getD 0 < 3 →
      getTimeScore brain hour = 1) := by
  refine ⟨⟨?_, ?_⟩, ?_, ?_, ?_, ?_⟩
  · exact roundN_half_le _
  · exact roundN_le_three_half _
  · intro h
    unfold getTickerScore
    dsimp only
    rcases hl : brain.tickerMemory.lookup (stripUsEq ticker) with _ | tm
    · rfl
    · dsimp only
      rw [if_pos (h tm hl)]
  · intro h
    have hfold : ∀ (l : List String),
        (∀ f ∈ l, ∀ st, brain.factorMemory.lookup (normalizeFactor f) = some st →
          st.wins + st.losses < 2) →
        ∀ acc, l.foldl (factorStep brain.factorMemory) acc = acc := by
      intro l
      induction l with
      | nil => intro _ acc; rfl
      | cons a t ih =>
        intro hl acc
        rw [List.foldl_cons]
        have hstep : factorStep brain.factorMemory acc a = acc := by
          unfold factorStep
          dsimp only
          rcases hla : brain.factorMemory.lookup (normalizeFactor a) with _ | st
          · rfl
          · have hlt := hl a (List.mem_cons_self a t) st hla
            dsimp only
            rw [if_neg (by omega)]
        rw [hstep]
        exact ih (fun f hf st hst => hl f (List.mem_cons_of_mem a hf) st hst) acc
    unfold getFactorScore
    dsimp only
    rw [hfold factors h (1, [], [])]
    rw [show max (7/10 : ℚ) (min (13/10) (((1 : ℚ), ([] : List String),
      ([] : List String)).1)) = 1 by norm_num]
    exact roundN_one
  · intro h
    unfold getRegimeScore
    rw [if_pos h]
  · intro h
    unfold getTimeScore
    rw [if_pos h]

/-- C4 witness: the bounds-and-neutrality theorem applied to the fresh brain
(no recorded trades on any axis): every axis contributes exactly 1.0 and the
resulting multiplier is 1, inside 0.5..1.5. -/
theorem combined_intelligence_bounds_and_neutral_witness :
    (1/2 ≤ (getCombinedIntelligence {} "AAPL" ["SMA+"] "trend" "10").confidenceMult ∧
     (getCombinedIntelligence {} "AAPL" ["SMA+"] "trend" "10").confidenceMult ≤ 3/2) ∧
    (getTickerScore {} "AAPL").confidenceMult = 1 ∧
    (getFactorScore {} ["SMA+"]).factorMult = 1 ∧
    getRegimeScore {} "trend" = 1 ∧
    getTimeScore {} "10" = 1 := by
  have h := combined_intelligence_bounds_and_neutral {} "AAPL" ["SMA+"] "trend" "10"
  refine ⟨h.1, h.2.1 ?_, h.2.2.1 ?_, h.2.2.2.1 (by decide), h.2.2.2.2 (by decide)⟩
  · intro tm htm
    exact absurd htm (by simp [Brain.tickerMemory])
  · intro f hf st hst
    exact absurd hst (by simp [Brain.factorMemory])

/-! ### Claim C10: break-even trades count as losses -/

/-- C10: a closed trade with exactly zero P&L is classified as a loss
everywhere outcome statistics are updated: learn_from_trade (is_win = pnl > 0)
increments losses and lose_streak and resets win_streak of the ticker memory,
and update_trade_result increments consecutive_losses and resets
consecutive_wins — break-even never counts as a win. -/
theorem breakeven_counts_as_loss (brain : Brain) (ticker : String) (hold : ℚ)
    (ts regime hour : String) (state : RiskState) :
    ((learnFromTrade brain ticker 0 hold ts regime hour).tickerMemory.lookup
        (stripUsEq ticker) =
      some (learnTickerUpdate (brain.tickerMemory.lookup (stripUsEq ticker)) 0 hold ts)) ∧
    ((learnTickerUpdate (brain.tickerMemory.lookup (stripUsEq ticker)) 0 hold ts).losses =
      ((brain.tickerMemory.lookup (stripUsEq ticker)).getD {}).losses + 1) ∧
    ((learnTickerUpdate (brain.tickerMemory.lookup (stripUsEq ticker)) 0 hold ts).loseStreak =
      ((brain.tickerMemory.lookup (stripUsEq ticker)).getD {}).loseStreak + 1) ∧
    ((learnTickerUpdate (brain.tickerMemory.lookup (stripUsEq ticker)) 0 hold ts).winStreak
      = 0) ∧
    ((learnTickerUpdate (brain.tickerMemory.lookup (stripUsEq ticker)) 0 hold ts).wins =
      ((brain.tickerMemory.lookup (stripUsEq ticker)).getD {}).wins) ∧
    ((updateTradeResult state 0).consecutiveLosses = state.consecutiveLosses + 1) ∧
    ((updateTradeResult state 0).consecutiveWins = 0) := by
  have hnot : ¬ ((0 : ℚ) < 0) := lt_irrefl 0
  refine ⟨?_, ?_, ?_, ?_, ?_, ?_, ?_⟩ <;>
    simp [learnFromTrade, learnTickerUpdate, updateTradeResult, hnot, List.lookup]

/-! ## Idempotency keys (bot.py) -/

/-! SHA-256 over byte lists, 32-bit words as Nat mod 2^32, used by
_fingerprint = hashlib.sha256(f-string).hexdigest(). -/

def w32 (x : ℕ) : ℕ := x % 4294967296

def rotate32 (x n : ℕ) : ℕ := w32 ((x <<< (32 - n)) ||| (x >>> n))

def sumA (x : ℕ) : ℕ := Nat.xor (Nat.xor (rotate32 x 2) (rotate32 x 13)) (rotate32 x 22)

def sumE (x : ℕ) : ℕ := Nat.xor (Nat.xor (rotate32 x 6) (rotate32 x 11)) (rotate32 x 25)

def sig0 (x : ℕ) : ℕ := Nat.xor (Nat.xor (rotate32 x 7) (rotate32 x 18)) (x >>> 3)

def sig1 (x : ℕ) : ℕ := Nat.xor (Nat.xor (rotate32 x 17) (rotate32 x 19)) (x >>> 10)

/-- The 64 SHA-256 round constants of FIPS 180-4, written in decimal. -/
def shaK : List ℕ :=
  [1116352408, 1899447441, 3049323471, 3921009573, 961987163,
   1508970993, 2453635748, 2870763221, 3624381080, 310598401,
   607225278, 1426881987, 1925078388, 2162078206, 2614888103,
   3248222580, 3835390401, 4022224774, 264347078, 604807628,
   770255983, 1249150122, 1555081692, 1996064986, 2554220882,
   2821834349, 2952996808, 3210313671, 3336571891, 3584528711,
   113926993, 338241895, 666307205, 773529912, 1294757372,
   1396182291, 1695183700, 1986661051, 2177026350, 2456956037,
   2730485921, 2820302411, 3259730800, 3345764771, 3516065817,
   3600352804, 4094571909, 275423344, 430227734, 506948616,
   659060556, 883997877, 958139571, 1322822218, 1537002063,
   1747873779, 1955562222, 2024104815, 2227730452, 2361852424,
   2428436474, 2756734187, 3204031479, 3329325298]

/-- The eight SHA-256 initial hash words, written in decimal. -/
def shaH0 : List ℕ :=
  [1779033703, 3144134277, 1013904242, 2773480762,
   1359893119, 2600822924, 528734635, 1541459225]

/-- Big-endian 32-bit words from a byte list (length a multiple of 4). -/
def toWords : List ℕ → List ℕ
  | b0 :: b1 :: b2 :: b3 :: rest => (((b0 * 256 + b1) * 256 + b2) * 256 + b3) :: toWords rest
  | _ => []

/-- Append the next expanded message-schedule word. -/
def scheduleStep (ws : List ℕ) : List ℕ :=
  ws ++ [w32 (sig1 (ws.getD (ws.length - 2) 0) + ws.getD (ws.length - 7) 0 +
              sig0 (ws.getD (ws.length - 15) 0) + ws.getD (ws.length - 16) 0)]

/-- Expand 16 words to the 64-word schedule. -/
def schedule (ws : List ℕ) : List ℕ := scheduleStep^[48] ws

/-- One compression round on the state [a, b, c, d, e, f, g, h]. -/
def shaRound (st : List ℕ) (k w : ℕ) : List ℕ :=
  match st with
  | [a, b, c, d, e, f, g, hh] =>
      let ch := Nat.xor (e &&& f) ((Nat.xor e 4294967295) &&& g)
      let maj := Nat.xor (Nat.xor (a &&& b) (a &&& c)) (b &&& c)
      let t1 := w32 (hh + sumE e + ch + k + w)
      let t2 := w32 (sumA a + maj)
      [w32 (t1 + t2), a, b, c, w32 (d + t1), e, f, g]
  | _ => st

/-- Compress one 64-word schedule into the running hash. -/
def compress (h0 ws : List ℕ) : List ℕ :=
  let final := (shaK.zip ws).foldl (fun st kw => shaRound st kw.1 kw.2) h0
  (h0.zip final).map (fun p => w32 (p.1 + p.2))

/-- SHA-256 padding: 0x80, zeros to 56 mod 64, 8-byte big-endian bit length. -/
def shaPad (msg : List ℕ) : List ℕ :=
  let bitLen := msg.length * 8
  let zeros := (119 - msg.length % 64) % 64
  msg ++ [128] ++ List.replicate zeros 0 ++
    (List.range 8).map (fun i => (bitLen >>> ((7 - i) * 8)) % 256)

/-- Split into n blocks of 64 bytes. -/
def chunksN : ℕ → List ℕ → List (List ℕ)
  | 0, _ => []
  | n + 1, bs => bs.take 64 :: chunksN n (bs.drop 64)

def sha256bytes (msg : List ℕ) : List ℕ :=
  let padded := shaPad msg
  (chunksN (padded.length / 64) padded).foldl
    (fun h blk => compress h (schedule (toWords blk))) shaH0

def hexDigitChar (n : ℕ) : Char :=
  if n < 10 then Char.ofNat (48 + n) else Char.ofNat (87 + n)

def toHex8 (w : ℕ) : List Char :=
  (List.range 8).map (fun i => hexDigitChar ((w >>> ((7 - i) * 4)) &&& 15))

def hexdigest (ws : List ℕ) : String := String.mk (ws.flatMap toHex8)

def strBytes (s : String) : List ℕ := s.toList.map Char.toNat

/-- _fingerprint(ticker, quantity) = sha256(f-string of ticker:quantity)
in hex.  qtyRepr is the Python decimal rendering of the float quantity
(5.0 prints as 5.0, 5.1 as 5.1). -/
def fingerprint (ticker qtyRepr : String) : String :=
  hexdigest (sha256bytes (strBytes (ticker ++ ":" ++ qtyRepr)))

/-- One record of the .idempotency.json store. -/
structure IdemEntry where
  idempotencyKey : String
  ticker : String
  quantityRepr : String
  created : ℚ
deriving DecidableEq

/-- The persisted store: fingerprint to entry, assignment modelled by
shadowing insertion. -/
def IdemStore : Type := List (String × IdemEntry)

/-- _ensure_client_order_id(ticker, quantity, persist): return the stored key
for the fingerprint when present; otherwise draw a fresh uuid4 (freshUuid, an
input to the model) and save the new entry only when persist is set.  Returns
the key and the store as visible to the NEXT call, i.e. the file contents. -/
def ensureClientOrderId (store : IdemStore) (ticker qtyRepr : String)
    (freshUuid : String) (now : ℚ) (persist : Bool) : String × IdemStore :=
  let fp := fingerprint ticker qtyRepr
  match List.lookup fp store with
  | some e => (e.idempotencyKey, store)
  | none =>
      (freshUuid, if persist then (fp, ⟨freshUuid, ticker, qtyRepr, now⟩) :: store else store)

/-- The Idempotency-Key header attached by place_market_order: the caller's
client_order_id when truthy, else _ensure_client_order_id with the DEFAULT
persist=False. -/
def placeMarketOrderIdemKey (clientOrderId : Option String) (store : IdemStore)
    (ticker qtyRepr freshUuid : String) (now : ℚ) : String :=
  match clientOrderId with
  | some c => if c = "" then (ensureClientOrderId store ticker qtyRepr freshUuid now false).1
      else c
  | none => (ensureClientOrderId store ticker qtyRepr freshUuid now false).1

/-! ### Claim C5: idempotency keys -/

/-- C5 (counterexample): the key attached to an outbound order is NOT a
deterministic function of (ticker, quantity): place_market_order calls the
generator with the default persist=False, so a newly drawn uuid4 is never
saved, and two successive placements of (AAPL, 5.0) against the same (empty)
store carry whatever distinct fresh UUIDs were drawn. -/
theorem idempotency_key_not_deterministic_counterexample :
    placeMarketOrderIdemKey none [] "AAPL" "5.0" "11111111-aaaa-4bbb-8ccc-111111111111" 0 =
      "11111111-aaaa-4bbb-8ccc-111111111111" ∧
    placeMarketOrderIdemKey none [] "AAPL" "5.0" "22222222-dddd-4eee-8fff-222222222222" 0 =
      "22222222-dddd-4eee-8fff-222222222222" ∧
    ("11111111-aaaa-4bbb-8ccc-111111111111" : String) ≠
      "22222222-dddd-4eee-8fff-222222222222" :=
  ⟨rfl, rfl, by decide⟩

/-- C5 (amended): the FINGERPRINT under which keys are cached is a
deterministic function of (ticker, quantity) — it is stable across calls and
differs between (AAPL, 5.0) and (AAPL, 5.1); when a key has been persisted
for that fingerprint (persist=True, as the CLI --idempotency-persist path and
the tests do), every later call returns the same stored key regardless of the
fresh UUID drawn; but with the default persist=False used by
place_market_order a missing entry draws a fresh random UUID on every call
and leaves the store unchanged, so keys are only stable once persisted. -/
theorem idempotency_fingerprint_deterministic_persisted_reuse :
    (fingerprint "AAPL" "5.0" ≠ fingerprint "AAPL" "5.1") ∧
    (∀ (store : IdemStore) (t q u1 u2 : String) (n1 n2 : ℚ),
      List.lookup (fingerprint t q) store = none →
      (ensureClientOrderId store t q u1 n1 true).1 = u1 ∧
      (ensureClientOrderId (ensureClientOrderId store t q u1 n1 true).2 t q u2 n2 false).1
        = u1) ∧
    (∀ (store : IdemStore) (t q u : String) (n : ℚ),
      List.lookup (fingerprint t q) store = none →
      ensureClientOrderId store t q u n false = (u, store)) := by
  refine ⟨by decide, ?_, ?_⟩
  · intro store t q u1 u2 n1 n2 h
    unfold ensureClientOrderId
    dsimp only
    rw [h]
    simp [List.lookup]
  · intro store t q u n h
    unfold ensureClientOrderId
    dsimp only
    rw [h]
    rfl

/-- C5 witness: persisted reuse and the persist=False no-op at the empty
store with concrete UUIDs. -/
theorem idempotency_fingerprint_deterministic_persisted_reuse_witness :
    ((ensureClientOrderId [] "AAPL" "5.0" "11111111-aaaa-4bbb-8ccc-111111111111" 0 true).1 =
      "11111111-aaaa-4bbb-8ccc-111111111111" ∧
     (ensureClientOrderId
        (ensureClientOrderId [] "AAPL" "5.0" "11111111-aaaa-4bbb-8ccc-111111111111" 0 true).2
        "AAPL" "5.0" "22222222-dddd-4eee-8fff-222222222222" 1 false).1 =
      "11111111-aaaa-4bbb-8ccc-111111111111") ∧
    ensureClientOrderId [] "AAPL" "5.0" "22222222-dddd-4eee-8fff-222222222222" 2 false =
      ("22222222-dddd-4eee-8fff-222222222222", []) :=
  ⟨idempotency_fingerprint_deterministic_persisted_reuse.2.1 [] "AAPL" "5.0"
      "11111111-aaaa-4bbb-8ccc-111111111111" "22222222-dddd-4eee-8fff-222222222222" 0 1 rfl,
   idempotency_fingerprint_deterministic_persisted_reuse.2.2 [] "AAPL" "5.0"
      "22222222-dddd-4eee-8fff-222222222222" 2 rfl⟩

end SmartBot
